import Mathlib

/-!
Verification of the `use-smart-form` field-rendering and submission layer
(`src/core/useSmartForm.ts`).

The development shallowly embeds the `Field` renderer returned by
`useSmartForm`: the field descriptor props, the watched values snapshot, the
validation-error map, and the JSX markup the renderer produces.  JSX output is
modelled by the inductive `Node` type; a component returning JavaScript `null`
is modelled by `Option.none` at the top level and by `Node.null` for a null
child expression.  External collaborators (the form-state engine
`react-hook-form`, the `zod` resolver, and the two small helper modules
`src/utils/cn` and `src/core/styles` that are not part of the provided
sources) are modelled from the specification text, each marked by a doc
comment starting with the words Modelled from the spec.
-/

namespace UseSmartForm

/-- A file object selected in a native file input.  Only identity matters to
the claims, so it is represented by its file name. -/
structure FileObj where
  fname : String
deriving DecidableEq, Repr

/-- A JavaScript value as it can occur in the form-values object: strings,
numbers (including the NaN produced by coercing a non-numeric string),
booleans, `null`, `undefined`, a single file, or an array of files. -/
inductive JSValue where
  | undefined
  | null
  | str (s : String)
  | num (n : Int)
  | nan
  | bool (b : Bool)
  | file (f : FileObj)
  | fileList (fs : List FileObj)
deriving DecidableEq, Repr

/-- The form-values object: a total map from field name to current value,
reading `undefined` for names never written (JavaScript property access). -/
def FormValues := String → JSValue

/-- One entry of the validation-error map: an error object carrying an
optional message string. -/
structure ErrorEntry where
  message : Option String
deriving DecidableEq, Repr

/-- The validation-error map `formState.errors`: indexing a name on which no
error is recorded yields `undefined`, modelled as `none`. -/
def ValidationErrors := String → Option ErrorEntry

/-- The field-type enumeration of `useSmartForm.ts` (type `FieldType`,
lines 17-29).  The constructor `other` models a runtime string outside the
compile-time enumeration reaching the `default` arm of the dispatch switch
(lines 266-267); the TypeScript type system forbids it statically but the
switch still handles it. -/
inductive FieldType where
  | text
  | number
  | checkbox
  | select
  | textarea
  | email
  | file
  | date
  | range
  | radio
  | password
  | tel
  | other (s : String)
deriving DecidableEq, Repr

/-- The string the type attribute of the native input receives. -/
def FieldType.attr : FieldType → String
  | .text => "text"
  | .number => "number"
  | .checkbox => "checkbox"
  | .select => "select"
  | .textarea => "textarea"
  | .email => "email"
  | .file => "file"
  | .date => "date"
  | .range => "range"
  | .radio => "radio"
  | .password => "password"
  | .tel => "tel"
  | .other s => s

/-- The open bag of native-input passthrough attributes (`...rest` in the
destructuring, lines 79-89): the properties the renderer reads by name
(`placeholder`, `accept`, `multiple`), plus any remaining attributes as
key-value pairs. -/
structure RestProps where
  placeholder : Option String := none
  accept : Option String := none
  multiple : Bool := false
  attrs : List (String × String) := []
deriving Repr

/-- The field descriptor (type `FieldProps`, lines 31-45): the named props the
renderer destructures, with the same defaults (`type` defaults to text,
line 82). -/
structure FieldProps where
  name : String
  label : Option String := none
  type : FieldType := .text
  options : Option (List String) := none
  showWhen : Option (FormValues → Bool) := none
  checkBoxLabel : Option String := none
  displayValue : Bool := false
  className : Option String := none
  rest : RestProps := {}

/-- Rendered markup: a JSX tree flattened to element name, string attributes
and children.  `Node.null` is a null child expression (rendering nothing);
`text` is a text child. -/
inductive Node where
  | null
  | text (s : String)
  | elem (tag : String) (attrs : List (String × String)) (children : List Node)

/-- Modelled from the spec: the class-name helper `cn` from `src/utils/cn`, a
module not included in the provided sources.  The spec (section 1) calls it
Tailwind class-name concatenation: falsy arguments (`false`, `undefined`,
the empty string) are dropped and the rest joined with single spaces. -/
def cn (parts : List (Option String)) : String :=
  String.intercalate " " ((parts.filterMap id).filter (fun s => s ≠ ""))

/-- Modelled from the spec: the style table imported from `src/core/styles`,
a module not included in the provided sources.  The spec (section 1) treats
styling as out of scope, so each entry is represented by a distinct symbolic
class-name string. -/
structure Styles where
  input : String := "styles.input"
  checkbox : String := "styles.checkbox"
  checkboxLabel : String := "styles.checkboxLabel"
  textarea : String := "styles.textarea"
  select : String := "styles.select"
  selectValue : String := "styles.selectValue"
  range : String := "styles.range"
  radio : String := "styles.radio"
  label : String := "styles.label"
  error : String := "styles.error"

/-- The style table instance used by the renderer. -/
def styles : Styles := {}

/-- The attribute list contributed by spreading `...rest` onto an element:
the named passthrough properties followed by the remaining attribute bag. -/
def restAttrs (rest : RestProps) : List (String × String) :=
  (match rest.placeholder with
    | some p => [("placeholder", p)]
    | none => []) ++
  (match rest.accept with
    | some a => [("accept", a)]
    | none => []) ++
  (if rest.multiple then [("multiple", "true")] else []) ++
  rest.attrs

/-- The class string `cn(styleClass, hasError && "border-red-500",
className)` computed for every input variant. -/
def mkClass (styleClass : String) (hasError : Bool) (className : Option String) : String :=
  cn [some styleClass, if hasError then some "border-red-500" else none, className]

/-- The attributes `register(name)` spreads onto a native element: the name
binding of the normal field-binding path.  (The accompanying event handlers
are functions and carry no markup.) -/
def registerAttrs (name : String) : List (String × String) :=
  [("name", name)]

/-- `baseProps` (lines 105-109): `id`, the spread of `rest`, and the computed
class string. -/
def baseProps (name : String) (rest : RestProps) (hasError : Bool)
    (className : Option String) : List (String × String) :=
  ("id", name) :: restAttrs rest ++
    [("className", mkClass styles.input hasError className)]

/-- The display string React produces for a primitive child expression, used
for the live value shown under a range input (line 234). -/
def JSValue.display : JSValue → String
  | .undefined => ""
  | .null => ""
  | .str s => s
  | .num n => toString n
  | .nan => "NaN"
  | .bool _ => ""
  | .file f => f.fname
  | .fileList _ => ""

/-- The disabled hidden placeholder option injected first into every select
(lines 206-208). -/
def placeholderOption (placeholder : Option String) : Node :=
  .elem "option" [("value", ""), ("disabled", "true"), ("hidden", "true")]
    [.text (placeholder.getD "Select an option")]

/-- One rendered select option (lines 209-213). -/
def selectOption (opt : String) : Node :=
  .elem "option" [("value", opt), ("className", styles.selectValue)] [.text opt]

/-- One rendered labeled radio option (lines 244-260). -/
def radioOption (name : String) (hasError : Bool) (className : Option String)
    (opt : String) : Node :=
  .elem "label" [("className", "inline-flex items-center gap-2 text-sm")]
    [.elem "input"
      (("type", "radio") :: ("value", opt) :: registerAttrs name ++
        [("className", mkClass styles.radio hasError className)]) [],
     .elem "span" [] [.text opt]]

/-- The `inputElement` computed by the type-dispatch switch
(lines 111-268), given the already-destructured props, the current values
snapshot and the error flag. -/
def inputElement (props : FieldProps) (values : FormValues) (hasError : Bool) : Node :=
  match props.type with
  | .email | .text | .date | .tel | .password =>
    .elem "input"
      (("type", props.type.attr) :: registerAttrs props.name ++
        baseProps props.name props.rest hasError props.className) []
  | .number =>
    .elem "input"
      (("type", "number") :: registerAttrs props.name ++
        baseProps props.name props.rest hasError props.className) []
  | .checkbox =>
    .elem "div" [("className", "flex items-center gap-2")]
      ([.elem "input"
          (("id", props.name) :: ("type", "checkbox") :: registerAttrs props.name ++
            restAttrs props.rest ++
            [("className", mkClass styles.checkbox hasError props.className)]) []] ++
        (match props.checkBoxLabel with
          | some l =>
            if l ≠ "" then
              [.elem "label" [("htmlFor", props.name), ("className", styles.checkboxLabel)]
                [.text l]]
            else [.null]
          | none => [.null]))
  | .textarea =>
    .elem "textarea"
      (("id", props.name) :: registerAttrs props.name ++ restAttrs props.rest ++
        [("className", mkClass styles.textarea hasError props.className)]) []
  | .file =>
    .elem "input"
      (("id", props.name) :: ("type", "file") :: restAttrs props.rest ++
        [("className", mkClass styles.input hasError props.className)]) []
  | .select =>
    match props.options with
    | some opts =>
      .elem "select"
        (("id", props.name) :: registerAttrs props.name ++ restAttrs props.rest ++
          [("className", mkClass styles.select hasError props.className)])
        (placeholderOption props.rest.placeholder :: opts.map selectOption)
    | none => .null
  | .range =>
    .elem "div" []
      [.elem "input"
        (("id", props.name) :: ("type", "range") :: registerAttrs props.name ++
          restAttrs props.rest ++
          [("className", mkClass styles.range hasError props.className)]) [],
       if props.displayValue then
         .elem "div" [("className", "text-sm text-muted-foreground mt-1")]
           [.text (values props.name).display]
       else .null]
  | .radio =>
    match props.options with
    | some opts =>
      .elem "div" [("className", "flex flex-col gap-2")]
        (opts.map (radioOption props.name hasError props.className))
    | none => .null
  | .other _ => .null

/-- The conditional error paragraph (lines 278-283): rendered when the error
map has an entry for the field, showing its message or the generic fallback
when the entry carries no message. -/
def errorParagraph (error : Option ErrorEntry) : Node :=
  match error with
  | none => .null
  | some err =>
    .elem "p" [("className", styles.error)]
      [.text (err.message.getD "This field is required")]

/-- The conditional field label (lines 272-276): rendered above the input when
a non-empty label is given and the type is not checkbox. -/
def fieldLabel (props : FieldProps) : Node :=
  match props.label with
  | some l =>
    if l ≠ "" ∧ props.type ≠ .checkbox then
      .elem "label" [("className", styles.label), ("htmlFor", props.name)] [.text l]
    else .null
  | none => .null

/-- The visibility gate (line 97): `showWhen ? showWhen(values) : true`. -/
def shouldRenderB (props : FieldProps) (values : FormValues) : Bool :=
  match props.showWhen with
  | some p => p values
  | none => true

/-- The `Field` renderer (lines 79-286): evaluates the visibility gate on the
watched values snapshot, returning `none` (the component returns null) when a
supplied `showWhen` predicate rejects; otherwise looks up the field entry of
the error map and returns the wrapper div holding the conditional label, the
type-dispatched input element, and the conditional error paragraph. -/
def renderField (props : FieldProps) (values : FormValues)
    (errors : ValidationErrors) : Option Node :=
  let shouldRender := shouldRenderB props values
  if !shouldRender then none
  else
    let error := errors props.name
    let hasError := error.isSome
    some (.elem "div" [("className", "mb-4")]
      [fieldLabel props, inputElement props values hasError, errorParagraph error])

/-- Modelled from the spec: the state-engine explicit value setter
`methods.setValue` (section 6: the engine must provide an explicit value
setter).  Writing a value at a key updates the form-values map at that key and
leaves every other key unchanged. -/
def setValue (values : FormValues) (name : String) (v : JSValue) : FormValues :=
  fun k => if k = name then v else values k

/-- The register options passed by the type-dispatch switch: the number and
range arms register with `valueAsNumber: true` (lines 124 and 224); every
other registering arm passes no options. -/
def registerOptionsFor : FieldType → Bool
  | .number | .range => true
  | _ => false

/-- The numeric value of a list of decimal digits. -/
def digitsVal (l : List Char) : Nat :=
  l.foldl (fun acc c => acc * 10 + (c.toNat - 48)) 0

/-- Modelled from the spec: JavaScript numeric conversion of a raw input
string, restricted to the integer inputs the claims concern — an optionally
minus-signed decimal digit string converts to the corresponding number, and
every other string is modelled as NaN. -/
def parseNumber (s : String) : JSValue :=
  match s.data with
  | [] => .nan
  | c :: cs =>
    if c = '-' then
      if cs ≠ [] ∧ cs.all Char.isDigit then .num (-(digitsVal cs : Int)) else .nan
    else if (c :: cs).all Char.isDigit then .num (digitsVal (c :: cs))
    else .nan

/-- Modelled from the spec: the state-engine write path for a native change
event on a registered field (section 4.2: for number and range the value is
coerced to numeric on read).  With `valueAsNumber` requested, the raw input
string is stored as a number (NaN when non-numeric); otherwise it is stored
as the string itself. -/
def engineFieldWrite (valueAsNumber : Bool) (raw : String) : JSValue :=
  if valueAsNumber then parseNumber raw else .str raw

/-- Modelled from the spec: a native change event on a field registered with
the given options updates the values object through the engine write path. -/
def engineChangeUpdate (valueAsNumber : Bool) (name : String) (raw : String)
    (values : FormValues) : FormValues :=
  setValue values name (engineFieldWrite valueAsNumber raw)

/-- The value computed by the file-input change handler (lines 175-183): with
`multiple`, the array of selected files (empty when the file list is absent);
without, the first selected file or `null` when none is selected (the
JavaScript expression `e.target.files?.[0] || null`).  `files = none` models
an absent `e.target.files`; `some fs` models a file list holding `fs`. -/
def fileChangeValue (multiple : Bool) (files : Option (List FileObj)) : JSValue :=
  if multiple then
    .fileList (files.getD [])
  else
    match files with
    | some (f :: _) => .file f
    | _ => .null

/-- The effect of the file-input change handler on the values object: it
writes `fileChangeValue` at the field key through the engine explicit setter
`methods.setValue` (lines 178 and 181), not through the register binding. -/
def fileChangeUpdate (name : String) (multiple : Bool)
    (files : Option (List FileObj)) (values : FormValues) : FormValues :=
  setValue values name (fileChangeValue multiple files)

/-- Modelled from the spec: the submit pipeline of the `Form` wrapper
(line 71, `methods.handleSubmit(props.onSubmit || (() => \x7b\x7d))`, and
section 4.1: the engine submit handler performs full validation and invokes
`onSubmit` only if the schema accepts; invalid submissions are swallowed).
`resolve` is the schema resolver, returning either the per-field error map or
the coerced values object.  The result is the list of arguments with which
`onSubmit` is invoked during the submission: empty on rejection, a single
coerced values object on acceptance. -/
def submitInvocations (resolve : FormValues → Except ValidationErrors FormValues)
    (values : FormValues) : List FormValues :=
  match resolve values with
  | .error _ => []
  | .ok coerced => [coerced]

/-- The input-element child of a rendered field wrapper (`Node.null` when the
renderer produced no output at all). -/
def inputChild : Option Node → Node
  | some (.elem _ _ [_, inp, _]) => inp
  | _ => .null

/-- The error child of a rendered field wrapper (`Node.null` when the renderer
produced no output at all). -/
def errorChild : Option Node → Node
  | some (.elem _ _ [_, _, err]) => err
  | _ => .null

/-- The label child of a rendered field wrapper (`Node.null` when the renderer
produced no output at all). -/
def labelChild : Option Node → Node
  | some (.elem _ _ [lbl, _, _]) => lbl
  | _ => .null

/-- The attribute keys of a markup node (empty for null and text nodes). -/
def attrKeys : Node → List String
  | .elem _ attrs _ => attrs.map Prod.fst
  | _ => []

/-- Whether a node is the null child expression. -/
def Node.isNull : Node → Bool
  | .null => true
  | _ => false

/-- The empty values snapshot: every name reads `undefined`. -/
def emptyValues : FormValues := fun _ => .undefined

/-- The empty validation-error map. -/
def noErrors : ValidationErrors := fun _ => none

theorem renderField_visible (props : FieldProps) (values : FormValues)
    (errors : ValidationErrors) (h : shouldRenderB props values = true) :
    renderField props values errors =
      some (.elem "div" [("className", "mb-4")]
        [fieldLabel props,
         inputElement props values (errors props.name).isSome,
         errorParagraph (errors props.name)]) := by
  simp [renderField, h]

/-- Claim C1: the presence of the rendered field is governed solely by the
visibility predicate: with no `showWhen` the field renders unconditionally,
and with a `showWhen` it renders exactly when the predicate applied to the
current full values object returns true, rendering nothing otherwise. -/
theorem visibility_governs_presence (props : FieldProps) (values : FormValues)
    (errors : ValidationErrors) :
    (renderField props values errors).isSome =
      (match props.showWhen with
        | some p => p values
        | none => true) := by
  show (renderField props values errors).isSome = shouldRenderB props values
  cases hb : shouldRenderB props values with
  | false => simp [renderField, hb]
  | true => simp [renderField, hb]

/-- Claim C9: when the supplied `showWhen` predicate evaluates to false on the
current values, the renderer outputs nothing at all — no label and no error
text — regardless of the validation-error map, since the visibility gate
returns before the error lookup and the type dispatch. -/
theorem hidden_field_outputs_nothing (props : FieldProps) (values : FormValues)
    (errors : ValidationErrors) (p : FormValues → Bool)
    (h1 : props.showWhen = some p) (h2 : p values = false) :
    renderField props values errors = none := by
  simp [renderField, shouldRenderB, h1, h2]

/-- A conditionally shown field whose predicate reads another field key. -/
def hiddenProps : FieldProps :=
  { name := "newsletterFrequency",
    label := some "Frequency",
    showWhen := some (fun v => match v "wantsNewsletter" with
      | .bool b => b
      | _ => false) }

/-- An error map blaming the conditionally shown field. -/
def hiddenErrors : ValidationErrors :=
  fun k => if k = "newsletterFrequency" then some ⟨some "Required"⟩ else none

theorem hidden_field_outputs_nothing_witness :
    renderField hiddenProps emptyValues hiddenErrors = none :=
  hidden_field_outputs_nothing hiddenProps emptyValues hiddenErrors _ rfl rfl

/-- Claim C2: a submission whose values the schema resolver rejects never
invokes `onSubmit`; a submission the resolver accepts invokes `onSubmit`
exactly once, with the coerced values object the resolver produced. -/
theorem submit_validation_gate
    (resolve : FormValues → Except ValidationErrors FormValues)
    (values : FormValues) :
    (∀ errs, resolve values = .error errs → submitInvocations resolve values = []) ∧
    (∀ coerced, resolve values = .ok coerced →
      submitInvocations resolve values = [coerced]) := by
  constructor
  · intro errs h
    simp [submitInvocations, h]
  · intro coerced h
    simp [submitInvocations, h]

/-- A concrete resolver: requires a non-empty string at key name, and coerces
by trimming nothing — it returns the values unchanged on success. -/
def demoResolve : FormValues → Except ValidationErrors FormValues :=
  fun v => match v "name" with
    | .str s =>
      if s = "" then .error (fun k => if k = "name" then some ⟨some "Name is required"⟩ else none)
      else .ok v
    | _ => .error (fun k => if k = "name" then some ⟨some "Name is required"⟩ else none)

/-- Values accepted by `demoResolve`. -/
def demoGoodValues : FormValues := setValue emptyValues "name" (.str "Ada")

theorem submit_validation_gate_witness :
    submitInvocations demoResolve emptyValues = [] ∧
    submitInvocations demoResolve demoGoodValues = [demoGoodValues] :=
  ⟨(submit_validation_gate demoResolve emptyValues).1 _ rfl,
   (submit_validation_gate demoResolve demoGoodValues).2 _ rfl⟩

/-- A select descriptor carrying an empty options sequence. -/
def emptySelectProps : FieldProps :=
  { name := "mood", type := .select, options := some [] }

/-- A radio descriptor carrying an empty options sequence. -/
def emptyRadioProps : FieldProps :=
  { name := "mood", type := .radio, options := some [] }

/-- Claim C3 counterexample: with an empty (but present) options sequence, the
select and radio arms do render — an empty array is truthy, so the select
renders holding only its placeholder option and the radio renders an empty
group, both inside the field wrapper — contradicting the claim that nothing
renders for such a field. -/
theorem empty_options_still_renders_counter :
    (renderField emptySelectProps emptyValues noErrors).isSome = true ∧
    (inputChild (renderField emptySelectProps emptyValues noErrors)).isNull = false ∧
    (renderField emptyRadioProps emptyValues noErrors).isSome = true ∧
    (inputChild (renderField emptyRadioProps emptyValues noErrors)).isNull = false :=
  ⟨rfl, rfl, rfl, rfl⟩

/-- Claim C3 amended: only an absent options prop makes the select/radio input
element null — and even then the field wrapper still renders; a present but
empty options sequence is truthy, so the field renders a non-null input
element (a select holding only the placeholder option, or an empty radio
group). -/
theorem select_radio_options_presence (props : FieldProps) (values : FormValues)
    (errors : ValidationErrors) (hshow : shouldRenderB props values = true)
    (htype : props.type = .select ∨ props.type = .radio) :
    (props.options = some [] →
      (renderField props values errors).isSome = true ∧
      (inputChild (renderField props values errors)).isNull = false) ∧
    (props.options = none →
      (renderField props values errors).isSome = true ∧
      (inputChild (renderField props values errors)).isNull = true) := by
  rw [renderField_visible props values errors hshow]
  rcases htype with h | h <;>
    exact ⟨fun ho => ⟨rfl, by simp [inputChild, inputElement, h, ho, Node.isNull]⟩,
           fun ho => ⟨rfl, by simp [inputChild, inputElement, h, ho, Node.isNull]⟩⟩

theorem select_radio_options_presence_witness :
    (renderField emptySelectProps emptyValues noErrors).isSome = true ∧
    (inputChild (renderField emptySelectProps emptyValues noErrors)).isNull = false :=
  (select_radio_options_presence emptySelectProps emptyValues noErrors rfl
    (Or.inl rfl)).1 rfl

/-- A descriptor whose runtime type string falls outside the enumeration,
carrying a label, with a validation error recorded against it. -/
def unmatchedProps : FieldProps :=
  { name := "extra", label := some "Extra", type := .other "custom" }

/-- An error map with a message-free entry for the unmatched-type field. -/
def unmatchedErrors : ValidationErrors :=
  fun k => if k = "extra" then some ⟨none⟩ else none

/-- Claim C4 counterexample: a descriptor whose type is outside the enumerated
variants does produce markup — the wrapper div with the label and the error
paragraph renders, only the input element itself is null — contradicting the
claim that no markup at all is produced. -/
theorem unmatched_type_renders_wrapper_counter :
    renderField unmatchedProps emptyValues unmatchedErrors =
      some (.elem "div" [("className", "mb-4")]
        [.elem "label" [("className", styles.label), ("htmlFor", "extra")] [.text "Extra"],
         .null,
         .elem "p" [("className", styles.error)] [.text "This field is required"]]) := rfl

/-- Claim C4 amended: a descriptor whose type is outside the enumerated
variants yields a null input element (the default dispatch arm), but the
renderer still produces the field wrapper — with any label and error text —
rather than no markup at all, and raises no error. -/
theorem unmatched_type_null_input (props : FieldProps) (values : FormValues)
    (errors : ValidationErrors) (s : String)
    (h1 : shouldRenderB props values = true) (h2 : props.type = .other s) :
    (renderField props values errors).isSome = true ∧
    (inputChild (renderField props values errors)).isNull = true ∧
    labelChild (renderField props values errors) = fieldLabel props ∧
    errorChild (renderField props values errors) = errorParagraph (errors props.name) := by
  rw [renderField_visible props values errors h1]
  exact ⟨rfl, by simp [inputChild, inputElement, h2, Node.isNull], rfl, rfl⟩

theorem unmatched_type_null_input_witness :
    (renderField unmatchedProps emptyValues unmatchedErrors).isSome = true ∧
    (inputChild (renderField unmatchedProps emptyValues unmatchedErrors)).isNull = true ∧
    labelChild (renderField unmatchedProps emptyValues unmatchedErrors) =
      fieldLabel unmatchedProps ∧
    errorChild (renderField unmatchedProps emptyValues unmatchedErrors) =
      errorParagraph (unmatchedErrors "extra") :=
  unmatched_type_null_input unmatchedProps emptyValues unmatchedErrors "custom" rfl rfl

/-- Claim C5: for a number or range field — which register with
`valueAsNumber` — a native input value given as the string 42 is stored in
the values object as the number 42; a field registered without the option
(such as text) stores the string itself. -/
theorem number_range_string_coerced (name : String) (values : FormValues) :
    engineChangeUpdate (registerOptionsFor .number) name "42" values name = .num 42 ∧
    engineChangeUpdate (registerOptionsFor .range) name "42" values name = .num 42 ∧
    engineChangeUpdate (registerOptionsFor .text) name "42" values name = .str "42" := by
  have h1 : engineFieldWrite (registerOptionsFor .number) "42" = .num 42 := by decide
  have h2 : engineFieldWrite (registerOptionsFor .range) "42" = .num 42 := by decide
  have h3 : engineFieldWrite (registerOptionsFor .text) "42" = .str "42" := by decide
  refine ⟨?_, ?_, ?_⟩ <;> simp [engineChangeUpdate, setValue, h1, h2, h3]

/-- A file field descriptor without the `multiple` attribute. -/
def fileProps : FieldProps := { name := "avatar", type := .file }

/-- A file field descriptor with the `multiple` attribute set. -/
def multiFileProps : FieldProps :=
  { name := "docs", type := .file, rest := { multiple := true } }

/-- Claim C6: a change event on a file field with one selected file stores
that file object at the field key in the values object; with `multiple` set
and two files selected it stores the two-element ordered sequence of those
files; and the write goes through the engine explicit setter, not the normal
field-binding path — the rendered file input carries no register name
binding (here for any file descriptor whose open attribute bag is empty). -/
theorem file_change_stores_files (name : String) (f f1 f2 : FileObj)
    (values : FormValues) (props : FieldProps) (verrs : ValidationErrors)
    (h1 : shouldRenderB props values = true) (h2 : props.type = .file)
    (h3 : props.rest.attrs = []) :
    fileChangeUpdate name false (some [f]) values name = .file f ∧
    fileChangeUpdate name true (some [f1, f2]) values name = .fileList [f1, f2] ∧
    (attrKeys (inputChild (renderField props values verrs))).contains "name" = false := by
  refine ⟨?_, ?_, ?_⟩
  · simp [fileChangeUpdate, setValue, fileChangeValue]
  · simp [fileChangeUpdate, setValue, fileChangeValue]
  · rw [renderField_visible props values verrs h1]
    show (attrKeys (inputElement props values (verrs props.name).isSome)).contains "name" = false
    rcases props with ⟨nm, lb, ty, op, sw, cb, dv, cl, ⟨pl, ac, mu, ats⟩⟩
    simp only at h2 h3
    subst h2 h3
    cases pl <;> cases ac <;> cases mu <;>
      simp [inputElement, attrKeys, restAttrs]

theorem file_change_stores_files_witness :
    fileChangeUpdate "avatar" false (some [⟨"a.png"⟩]) emptyValues "avatar" =
      .file ⟨"a.png"⟩ ∧
    fileChangeUpdate "avatar" true (some [⟨"a.png"⟩, ⟨"b.png"⟩]) emptyValues "avatar" =
      .fileList [⟨"a.png"⟩, ⟨"b.png"⟩] ∧
    (attrKeys (inputChild (renderField multiFileProps emptyValues noErrors))).contains
      "name" = false :=
  file_change_stores_files "avatar" ⟨"a.png"⟩ ⟨"a.png"⟩ ⟨"b.png"⟩ emptyValues
    multiFileProps noErrors rfl rfl rfl

/-- Claim C7: when the error map holds an entry for the field, the renderer
shows the error paragraph — carrying the error class and the entry message,
or the generic fallback when the entry carries no message — and applies the
error border class to the input; when the map holds no entry for the field,
no error text renders (shown here for a text field). -/
theorem error_entry_display (props : FieldProps) (values : FormValues)
    (errors : ValidationErrors) (h : shouldRenderB props values = true) :
    errorChild (renderField props values errors) = errorParagraph (errors props.name) ∧
    (∀ err, errors props.name = some err →
      errorChild (renderField props values errors) =
        .elem "p" [("className", styles.error)]
          [.text (err.message.getD "This field is required")]) ∧
    (errors props.name = none →
      (errorChild (renderField props values errors)).isNull = true) ∧
    (props.type = .text →
      inputChild (renderField props values errors) =
        .elem "input"
          (("type", "text") :: registerAttrs props.name ++
            baseProps props.name props.rest (errors props.name).isSome props.className)
          []) := by
  rw [renderField_visible props values errors h]
  refine ⟨rfl, fun err he => ?_, fun he => ?_, fun ht => ?_⟩
  · show errorParagraph (errors props.name) = _
    rw [he]; rfl
  · show (errorParagraph (errors props.name)).isNull = true
    rw [he]; rfl
  · show inputElement props values (errors props.name).isSome = _
    simp [inputElement, ht, FieldType.attr]

/-- A text field with a message-free validation error recorded against it. -/
def messagelessErrors : ValidationErrors :=
  fun k => if k = "email" then some ⟨none⟩ else none

/-- A plain text field descriptor named email. -/
def emailProps : FieldProps := { name := "email" }

theorem error_entry_display_witness :
    errorChild (renderField emailProps emptyValues messagelessErrors) =
      .elem "p" [("className", styles.error)] [.text "This field is required"] :=
  (error_entry_display emailProps emptyValues messagelessErrors rfl).2.1 ⟨none⟩ rfl

/-- Claim C8: the renderer is deterministic and idempotent — two evaluations
on equal descriptor, values snapshot, and error map yield equal markup.  In
this embedding the renderer is a pure function of its three inputs, so the
property holds by reflexivity. -/
theorem render_deterministic (p1 p2 : FieldProps) (v1 v2 : FormValues)
    (e1 e2 : ValidationErrors) (hp : p1 = p2) (hv : v1 = v2) (he : e1 = e2) :
    renderField p1 v1 e1 = renderField p2 v2 e2 := by
  subst hp hv he; rfl

theorem render_deterministic_witness :
    renderField emailProps emptyValues messagelessErrors =
      renderField emailProps emptyValues messagelessErrors :=
  render_deterministic emailProps emailProps emptyValues emptyValues
    messagelessErrors messagelessErrors rfl rfl rfl

/-- Claim C10: on a file field without `multiple`, a change event with zero
selected files — an empty file list, or an absent one — writes `null` at the
field key, clearing any previous value rather than leaving it unchanged. -/
theorem file_change_zero_files_clears (name : String) (values : FormValues) :
    fileChangeUpdate name false (some []) values name = .null ∧
    fileChangeUpdate name false none values name = .null := by
  constructor <;> simp [fileChangeUpdate, setValue, fileChangeValue]

end UseSmartForm
